import Mathlib

/-!
Verification of the working-directory resolution logic of
src/src/services/pathService.ts.

The TypeScript module exposes PathService.cwd, a three-strategy fallback
chain (active document, remembered root, workspace root), together with
helper routines: getCwdFromActiveTextEditor, findCargoTomlUpToWorkspace,
getPreviousCwd, checkWorkspaceCanBeUsedAsCwd, the free function
checkPathExists, and getRustcSysroot which spawns the compiler once.

The embedding below is a shallow one: promises that settle become
Except values, the mutable static field PathService.previousCwd is
threaded explicitly as state, the editor and workspace environment is a
record, and the filesystem is a function from paths to an optional
access error (mirroring the callback argument of fs.access).
-/

namespace PathServiceModel

/-- The filesystem as seen by the module: fs.access calls its callback
with an optional error; access p = none means the path is accessible. -/
structure FS where
  access : String → Option String

/-- The distinct rejection values created inside the module, one per
new Error(...) site of getCwdFromActiveTextEditor and
findCargoTomlUpToWorkspace. -/
inductive Err
  | noActiveDocument
  | documentOutsideWorkspace
  | markerNotFound
  | markerOutsideWorkspace
deriving DecidableEq

/-- Boolean prefix test on character lists, the semantics of the
JavaScript String.prototype.startsWith used at lines 107 and 122. -/
def listIsPre : List Char → List Char → Bool
  | [], _ => true
  | _ :: _, [] => false
  | a :: as, b :: bs => decide (a = b) && listIsPre as bs

/-- fileName.startsWith(root) from the source, as a character-list
prefix test. -/
def strStartsWith (s pre : String) : Bool :=
  listIsPre pre.toList s.toList

/-- Everything before the last slash of a character list, or none if
the list has no slash. Helper for dirname. -/
def beforeLastSlash : List Char → Option (List Char)
  | [] => none
  | c :: rest =>
    match beforeLastSlash rest with
    | some tail => some (c :: tail)
    | none => if c = '/' then some [] else none

/-- path.dirname for the absolute slash-separated paths the module
handles: the part before the last slash, "/" when that part is empty,
"." when there is no slash. -/
def dirname (p : String) : String :=
  match beforeLastSlash p.toList with
  | none => "."
  | some [] => "/"
  | some cs => String.mk cs

/-- path.join(a, b) for the two-argument uses in the source: insert a
slash unless a already ends with one. -/
def pathJoin (a b : String) : String :=
  match a.toList.getLast? with
  | some '/' => a ++ b
  | _ => a ++ "/" ++ b

/-- The free function checkPathExists (lines 147 to 156): a promise
built with only a resolve handler, so it always resolves, with true
exactly when fs.access reported no error. -/
def checkPathExists {ε : Type} (fs : FS) (p : String) : Except ε Bool :=
  Except.ok (fs.access p).isNone

/-- One step of the find-up package used at line 117: check the marker
in the current directory, else move to the parent; the fuel argument
makes the upward walk structurally recursive. -/
def findUpAux (fs : FS) : Nat → String → Option String
  | 0, _ => none
  | Nat.succ fuel, dir =>
    let candidate := pathJoin dir "Cargo.toml"
    if (fs.access candidate).isNone then
      some candidate
    else
      let parent := dirname dir
      if parent.length < dir.length then
        findUpAux fs fuel parent
      else
        none

/-- findUp("Cargo.toml", \x7b cwd \x7d): the nearest enclosing directory
walk; every step strictly shortens the directory string, so
length + 1 units of fuel always suffice. -/
def findUp (fs : FS) (dir : String) : Option String :=
  findUpAux fs (dir.length + 1) dir

/-- The editor and workspace environment the module reads through the
vscode API: the active document file name if any, and
vscode.workspace.rootPath. -/
structure Env where
  activeDocument : Option String
  rootPath : String
  fs : FS

/-- PathService.findCargoTomlUpToWorkspace (lines 114 to 128): run the
upward search, reject when nothing is found or the found marker path
does not start with the workspace root, else resolve with the dirname
of the found marker path. -/
def findCargoTomlUpToWorkspace (env : Env) (cwd : String) : Except Err String :=
  match findUp env.fs cwd with
  | none => Except.error Err.markerNotFound
  | some cargoTomlDirPath =>
    if strStartsWith cargoTomlDirPath env.rootPath then
      Except.ok (dirname cargoTomlDirPath)
    else
      Except.error Err.markerOutsideWorkspace

/-- PathService.getCwdFromActiveTextEditor (lines 100 to 112): reject
when there is no active editor, reject when the document file name does
not start with the workspace root, else search upward from the
document directory. -/
def getCwdFromActiveTextEditor (env : Env) : Except Err String :=
  match env.activeDocument with
  | none => Except.error Err.noActiveDocument
  | some fileName =>
    if strStartsWith fileName env.rootPath then
      findCargoTomlUpToWorkspace env (dirname fileName)
    else
      Except.error Err.documentOutsideWorkspace

/-- PathService.getPreviousCwd (lines 130 to 144): with no remembered
value reject with the error handed in; otherwise check the marker
directly inside the remembered directory and either resolve with the
remembered directory or reject with the error handed in. -/
def getPreviousCwd (fs : FS) (previousCwd : Option String) (error : Err) :
    Except Err String :=
  match previousCwd with
  | none => Except.error error
  | some prev =>
    (checkPathExists fs (pathJoin prev "Cargo.toml")).bind fun ex =>
      if ex then Except.ok prev else Except.error error

/-- PathService.checkWorkspaceCanBeUsedAsCwd (lines 94 to 98). -/
def checkWorkspaceCanBeUsedAsCwd (env : Env) : Except Err Bool :=
  checkPathExists env.fs (pathJoin env.rootPath "Cargo.toml")

/-- PathService.cwd (lines 59 to 92). The promise chain becomes a match:
on success of the active-document strategy the static field is
overwritten and the value returned; the first catch runs the
remembered-root strategy with the caught error; the second catch runs
the workspace check and resolves with the workspace root or rejects
with the caught error. Returns the settled value together with the new
contents of PathService.previousCwd. -/
def cwd (env : Env) (previousCwd : Option String) :
    Except Err String × Option String :=
  match getCwdFromActiveTextEditor env with
  | Except.ok newCwd => (Except.ok newCwd, some newCwd)
  | Except.error error =>
    match getPreviousCwd env.fs previousCwd error with
    | Except.ok prev => (Except.ok prev, previousCwd)
    | Except.error error2 =>
      ((checkWorkspaceCanBeUsedAsCwd env).bind fun canBeUsed =>
          if canBeUsed then Except.ok env.rootPath else Except.error error2,
       previousCwd)

/-- The observable outcome of the single child process spawned by
getRustcSysroot: either the error event fired, or the exit event fired
with an exit code and whatever standard output was captured. -/
inductive ProcessOutcome
  | spawnError
  | exited (code : Int) (stdout : String)
deriving DecidableEq

/-- PathService.getRustcSysroot (lines 10 to 26): reject (with no
argument, modelled as Unit) on the error event or on a nonzero exit
code, resolve with the trimmed captured output on exit code zero. -/
def getRustcSysroot (outcome : ProcessOutcome) : Except Unit String :=
  match outcome with
  | ProcessOutcome.spawnError => Except.error ()
  | ProcessOutcome.exited code stdout =>
    if code = 0 then Except.ok stdout.trim else Except.error ()

/-- Names for the three strategies of the fallback chain, for the
instrumented variant of cwd. -/
inductive Strategy
  | activeDocument
  | rememberedRoot
  | workspaceRoot
deriving DecidableEq

/-- cwd instrumented with the list of strategies that actually ran, in
order; branch for branch identical to cwd. -/
def cwdTrace (env : Env) (previousCwd : Option String) :
    (Except Err String × Option String) × List Strategy :=
  match getCwdFromActiveTextEditor env with
  | Except.ok newCwd =>
    ((Except.ok newCwd, some newCwd), [Strategy.activeDocument])
  | Except.error error =>
    match getPreviousCwd env.fs previousCwd error with
    | Except.ok prev =>
      ((Except.ok prev, previousCwd),
       [Strategy.activeDocument, Strategy.rememberedRoot])
    | Except.error error2 =>
      (((checkWorkspaceCanBeUsedAsCwd env).bind fun canBeUsed =>
           if canBeUsed then Except.ok env.rootPath else Except.error error2,
        previousCwd),
       [Strategy.activeDocument, Strategy.rememberedRoot, Strategy.workspaceRoot])

/-- A filesystem where exactly the listed paths are accessible. -/
def fsOf (paths : List String) : FS :=
  ⟨fun p => if p ∈ paths then none else some "ENOENT"⟩

/-- Fixture: active document inside the workspace, marker two levels up
from the document, inside the workspace. -/
def envA : Env :=
  ⟨some "/ws/proj/src/lib.rs", "/ws", fsOf ["/ws/proj/Cargo.toml"]⟩

/-- Fixture: no active document and an empty filesystem. -/
def envB : Env :=
  ⟨none, "/ws", fsOf []⟩

/-- Fixture: no active document; only the marker of a remembered root
exists. -/
def envC : Env :=
  ⟨none, "/ws", fsOf ["/old/Cargo.toml"]⟩

/-- Fixture: no active document; the marker sits directly in the
workspace root. -/
def envD : Env :=
  ⟨none, "/ws", fsOf ["/ws/Cargo.toml"]⟩

/-- Fixture: the workspace root is the string /ws but the active
document lives in the sibling directory /ws-other, which extends that
string; its own marker is in /ws-other. -/
def envSibling : Env :=
  ⟨some "/ws-other/src/main.rs", "/ws", fsOf ["/ws-other/Cargo.toml"]⟩

deriving instance DecidableEq for Except

/-- getPreviousCwd only ever rejects with the very error value it was
handed; it never mints an error of its own. -/
lemma getPreviousCwd_error_eq (fs : FS) (prev : Option String) (err e : Err)
    (h : getPreviousCwd fs prev err = Except.error e) : e = err := by
  cases prev with
  | none =>
    simp [getPreviousCwd] at h
    exact h.symm
  | some p =>
    simp [getPreviousCwd, checkPathExists, Except.bind] at h
    split at h
    · simp at h
    · simp at h
      exact h.symm

/-- Claim C1: every call of cwd attempts the three strategies strictly
in the order active document, remembered root, workspace root; the list
of attempted strategies is always one of the three ordered prefixes of
that sequence, and the first strategy that succeeds determines the
returned directory, the later strategies never being attempted after a
success. -/
theorem cwd_strategy_order (env : Env) (previousCwd : Option String) :
    (cwdTrace env previousCwd).1 = cwd env previousCwd ∧
    ((cwdTrace env previousCwd).2 = [Strategy.activeDocument] ∨
      (cwdTrace env previousCwd).2 = [Strategy.activeDocument, Strategy.rememberedRoot] ∨
      (cwdTrace env previousCwd).2 =
        [Strategy.activeDocument, Strategy.rememberedRoot, Strategy.workspaceRoot]) ∧
    (∀ c, getCwdFromActiveTextEditor env = Except.ok c →
      (cwdTrace env previousCwd).2 = [Strategy.activeDocument] ∧
        (cwd env previousCwd).1 = Except.ok c) ∧
    (∀ e p, getCwdFromActiveTextEditor env = Except.error e →
      getPreviousCwd env.fs previousCwd e = Except.ok p →
      (cwdTrace env previousCwd).2 = [Strategy.activeDocument, Strategy.rememberedRoot] ∧
        (cwd env previousCwd).1 = Except.ok p) := by
  unfold cwd cwdTrace
  cases h1 : getCwdFromActiveTextEditor env with
  | ok c => simp_all
  | error e =>
    cases h2 : getPreviousCwd env.fs previousCwd e with
    | ok p => simp_all
    | error e2 => simp_all

/-- Witness for C1: on a fixture where the active-document strategy
succeeds, only that strategy runs and its value is returned. -/
theorem cwd_strategy_order_witness :
    (cwdTrace envA none).2 = [Strategy.activeDocument] ∧
      (cwd envA none).1 = Except.ok "/ws/proj" :=
  (cwd_strategy_order envA none).2.2.1 "/ws/proj" (by decide)

/-- Claim C2: whenever cwd fails overall, the rejection carries exactly
the error produced by the active-document strategy, never one minted by
the remembered-root or workspace-root strategy. -/
theorem cwd_failure_carries_strategy1_error (env : Env) (previousCwd : Option String)
    (e : Err) (h : (cwd env previousCwd).1 = Except.error e) :
    getCwdFromActiveTextEditor env = Except.error e := by
  cases h1 : getCwdFromActiveTextEditor env with
  | ok c =>
    simp [cwd, h1] at h
  | error e1 =>
    cases h2 : getPreviousCwd env.fs previousCwd e1 with
    | ok p =>
      simp [cwd, h1, h2] at h
    | error e2 =>
      have he : e2 = e1 := getPreviousCwd_error_eq _ _ _ _ h2
      simp [cwd, h1, h2, checkWorkspaceCanBeUsedAsCwd, checkPathExists, Except.bind] at h
      split at h
      · simp at h
      · simp at h
        rw [← he, h]

/-- Witness for C2: with no active document, no remembered root and an
empty filesystem, the surfaced error is the strategy-1 error. -/
theorem cwd_failure_carries_strategy1_error_witness :
    getCwdFromActiveTextEditor envB = Except.error Err.noActiveDocument :=
  cwd_failure_carries_strategy1_error envB none Err.noActiveDocument (by decide)

/-- Claim C3: the remembered state is written exactly when the
active-document strategy succeeds, to the directory that strategy
returned; every other execution leaves it unchanged, and it is never
cleared, only overwritten. -/
theorem cwd_previousCwd_frame (env : Env) (previousCwd : Option String) :
    (∀ c, getCwdFromActiveTextEditor env = Except.ok c →
      (cwd env previousCwd).2 = some c) ∧
    (∀ e, getCwdFromActiveTextEditor env = Except.error e →
      (cwd env previousCwd).2 = previousCwd) ∧
    (∀ p, previousCwd = some p → ∃ q, (cwd env previousCwd).2 = some q) := by
  refine ⟨?_, ?_, ?_⟩
  · intro c hc
    simp [cwd, hc]
  · intro e he
    cases h2 : getPreviousCwd env.fs previousCwd e with
    | ok p => simp [cwd, he, h2]
    | error e2 => simp [cwd, he, h2]
  · intro p hp
    subst hp
    cases h1 : getCwdFromActiveTextEditor env with
    | ok c =>
      exact ⟨c, by simp [cwd, h1]⟩
    | error e =>
      refine ⟨p, ?_⟩
      cases h2 : getPreviousCwd env.fs (some p) e with
      | ok q => simp [cwd, h1, h2]
      | error e2 => simp [cwd, h1, h2]

/-- Witness for C3: a successful strategy 1 overwrites the remembered
root; a failing strategy 1 leaves it untouched. -/
theorem cwd_previousCwd_frame_witness :
    (cwd envA (some "/old")).2 = some "/ws/proj" ∧
      (cwd envB (some "/old")).2 = some "/old" :=
  ⟨(cwd_previousCwd_frame envA (some "/old")).1 "/ws/proj" (by decide),
   (cwd_previousCwd_frame envB (some "/old")).2.1 Err.noActiveDocument (by decide)⟩

/-- Claim C4: the active-document strategy checks its preconditions in
the fixed order no-active-document, document-prefix, marker-found,
marker-prefix, each with its own error, and any such failure still lets
the chain succeed through a later strategy. -/
theorem getCwd_active_document_checks (env : Env) :
    (env.activeDocument = none →
      getCwdFromActiveTextEditor env = Except.error Err.noActiveDocument) ∧
    (∀ f, env.activeDocument = some f → strStartsWith f env.rootPath = false →
      getCwdFromActiveTextEditor env = Except.error Err.documentOutsideWorkspace) ∧
    (∀ f, env.activeDocument = some f → strStartsWith f env.rootPath = true →
      (findUp env.fs (dirname f) = none →
        getCwdFromActiveTextEditor env = Except.error Err.markerNotFound) ∧
      (∀ t, findUp env.fs (dirname f) = some t →
        (strStartsWith t env.rootPath = false →
          getCwdFromActiveTextEditor env = Except.error Err.markerOutsideWorkspace) ∧
        (strStartsWith t env.rootPath = true →
          getCwdFromActiveTextEditor env = Except.ok (dirname t)))) ∧
    (∀ e, getCwdFromActiveTextEditor env = Except.error e →
      ∀ prev p, getPreviousCwd env.fs prev e = Except.ok p →
        (cwd env prev).1 = Except.ok p) := by
  refine ⟨?_, ?_, ?_, ?_⟩
  · intro hnone
    simp [getCwdFromActiveTextEditor, hnone]
  · intro f hf hpre
    simp [getCwdFromActiveTextEditor, hf, hpre]
  · intro f hf hpre
    constructor
    · intro hup
      simp [getCwdFromActiveTextEditor, findCargoTomlUpToWorkspace, hf, hpre, hup]
    · intro t hup
      constructor
      · intro htpre
        simp [getCwdFromActiveTextEditor, findCargoTomlUpToWorkspace, hf, hpre, hup, htpre]
      · intro htpre
        simp [getCwdFromActiveTextEditor, findCargoTomlUpToWorkspace, hf, hpre, hup, htpre]
  · intro e he prev p hprev
    simp [cwd, he, hprev]

/-- Witness for C4: the first check fires on a fixture with no active
document, and the success path returns the dirname of the found marker
on a fixture where all four checks pass. -/
theorem getCwd_active_document_checks_witness :
    getCwdFromActiveTextEditor envB = Except.error Err.noActiveDocument ∧
      getCwdFromActiveTextEditor envA = Except.ok (dirname "/ws/proj/Cargo.toml") :=
  ⟨(getCwd_active_document_checks envB).1 rfl,
   (((getCwd_active_document_checks envA).2.2.1 "/ws/proj/src/lib.rs" rfl
        (by decide)).2 "/ws/proj/Cargo.toml" (by decide)).2 (by decide)⟩

/-- Claim C5: with a remembered root set, the remembered-root strategy
performs only a direct existence check of the marker immediately inside
the remembered directory, and on success cwd returns the remembered
directory exactly as stored, leaving the remembered state unchanged. -/
theorem getPreviousCwd_direct_check (fs : FS) (p : String) (err : Err) :
    getPreviousCwd fs (some p) err =
      (if (fs.access (pathJoin p "Cargo.toml")).isNone then Except.ok p
       else Except.error err) ∧
    (∀ env e, getCwdFromActiveTextEditor env = Except.error e →
      getPreviousCwd env.fs (some p) e = Except.ok p →
      cwd env (some p) = (Except.ok p, some p)) := by
  constructor
  · simp [getPreviousCwd, checkPathExists, Except.bind]
  · intro env e he hprev
    simp [cwd, he, hprev]

/-- Witness for C5: the remembered directory /old with its marker still
present is returned unchanged. -/
theorem getPreviousCwd_direct_check_witness :
    cwd envC (some "/old") = (Except.ok "/old", some "/old") :=
  (getPreviousCwd_direct_check envC.fs "/old" Err.noActiveDocument).2 envC
    Err.noActiveDocument (by decide) (by decide)

/-- Claim C6: with no active document, no remembered root and the
marker directly inside the workspace root, cwd succeeds with the
workspace root path. -/
theorem cwd_workspace_fallback (env : Env)
    (hdoc : env.activeDocument = none)
    (hmarker : (env.fs.access (pathJoin env.rootPath "Cargo.toml")).isNone = true) :
    cwd env none = (Except.ok env.rootPath, none) := by
  simp [cwd, getCwdFromActiveTextEditor, hdoc, getPreviousCwd,
    checkWorkspaceCanBeUsedAsCwd, checkPathExists, Except.bind, hmarker]

/-- Witness for C6: workspace /ws with /ws/Cargo.toml present. -/
theorem cwd_workspace_fallback_witness :
    cwd envD none = (Except.ok "/ws", none) :=
  cwd_workspace_fallback envD rfl (by decide)

/-- Claim C7: if the active-document strategy succeeds, two consecutive
cwd calls under the same environment return the identical directory and
afterwards the remembered root equals that directory. -/
theorem cwd_success_idempotent (env : Env) (previousCwd : Option String) (c : String)
    (h : getCwdFromActiveTextEditor env = Except.ok c) :
    (cwd env previousCwd).1 = Except.ok c ∧
    cwd env (cwd env previousCwd).2 = (Except.ok c, some c) := by
  constructor
  · simp [cwd, h]
  · simp [cwd, h]

/-- Witness for C7: two consecutive calls on the same fixture both
return /ws/proj and remember it. -/
theorem cwd_success_idempotent_witness :
    (cwd envA none).1 = Except.ok "/ws/proj" ∧
      cwd envA (cwd envA none).2 = (Except.ok "/ws/proj", some "/ws/proj") :=
  cwd_success_idempotent envA none "/ws/proj" (by decide)

/-- Claim C8: getRustcSysroot observes its single spawned process once:
it rejects when the process cannot be started or exits nonzero, and on
exit code zero it resolves with the captured standard output trimmed of
surrounding whitespace. -/
theorem getRustcSysroot_spec (outcome : ProcessOutcome) :
    (outcome = ProcessOutcome.spawnError → getRustcSysroot outcome = Except.error ()) ∧
    (∀ code stdout, outcome = ProcessOutcome.exited code stdout →
      (code = 0 → getRustcSysroot outcome = Except.ok stdout.trim) ∧
      (code ≠ 0 → getRustcSysroot outcome = Except.error ())) := by
  constructor
  · intro h
    simp [getRustcSysroot, h]
  · intro code stdout h
    constructor
    · intro hc
      simp [getRustcSysroot, h, hc]
    · intro hc
      simp [getRustcSysroot, h, hc]

/-- Witness for C8: the three concrete process outcomes. -/
theorem getRustcSysroot_spec_witness :
    getRustcSysroot ProcessOutcome.spawnError = Except.error () ∧
      getRustcSysroot (ProcessOutcome.exited 0 " /sysroot ") =
        Except.ok " /sysroot ".trim ∧
      getRustcSysroot (ProcessOutcome.exited 101 "") = Except.error () :=
  ⟨(getRustcSysroot_spec ProcessOutcome.spawnError).1 rfl,
   ((getRustcSysroot_spec (ProcessOutcome.exited 0 " /sysroot ")).2 0 " /sysroot "
       rfl).1 rfl,
   ((getRustcSysroot_spec (ProcessOutcome.exited 101 "")).2 101 "" rfl).2 (by decide)⟩

/-- strStartsWith agrees with the list prefix order on the character
lists of the two strings. -/
lemma listIsPre_iff (as bs : List Char) : listIsPre as bs = true ↔ as <+: bs := by
  induction as generalizing bs with
  | nil => simp [listIsPre]
  | cons a as ih =>
    cases bs with
    | nil => simp [listIsPre]
    | cons b bs =>
      simp [listIsPre, ih, List.cons_prefix_cons]

/-- The upward-search helper never produces the document-outside error;
that error belongs only to the document prefix check. -/
lemma findCargoToml_not_doc_error (env : Env) (d : String) :
    findCargoTomlUpToWorkspace env d ≠ Except.error Err.documentOutsideWorkspace := by
  unfold findCargoTomlUpToWorkspace
  cases findUp env.fs d with
  | none => simp
  | some t =>
    by_cases hpre : strStartsWith t env.rootPath = true <;> simp [hpre]

/-- Claim C9: the lies-within-the-workspace tests are plain string
prefix comparisons; a document counts as inside exactly when its path
string starts with the workspace root string, likewise for the found
marker path, and a document in the sibling directory /ws-other with
workspace root /ws is accepted and resolved. -/
theorem workspace_prefix_is_string_prefix :
    (∀ s pre : String, strStartsWith s pre = true ↔ pre.toList <+: s.toList) ∧
    (∀ env f, env.activeDocument = some f →
      (getCwdFromActiveTextEditor env = Except.error Err.documentOutsideWorkspace ↔
        strStartsWith f env.rootPath = false)) ∧
    (∀ env d t, findUp env.fs d = some t →
      (findCargoTomlUpToWorkspace env d = Except.error Err.markerOutsideWorkspace ↔
        strStartsWith t env.rootPath = false)) ∧
    getCwdFromActiveTextEditor envSibling = Except.ok "/ws-other" := by
  refine ⟨?_, ?_, ?_, by decide⟩
  · intro s pre
    exact listIsPre_iff pre.toList s.toList
  · intro env f hf
    constructor
    · intro h
      by_contra hpre
      simp at hpre
      simp [getCwdFromActiveTextEditor, hf, hpre] at h
      exact findCargoToml_not_doc_error env (dirname f) h
    · intro hpre
      simp [getCwdFromActiveTextEditor, hf, hpre]
  · intro env d t hup
    constructor
    · intro h
      by_contra hpre
      simp at hpre
      simp [findCargoTomlUpToWorkspace, hup, hpre] at h
    · intro hpre
      simp [findCargoTomlUpToWorkspace, hup, hpre]

/-- Witness for C9: on the sibling fixture the document-outside check
is equivalent to the negated string prefix test. -/
theorem workspace_prefix_is_string_prefix_witness :
    getCwdFromActiveTextEditor envSibling = Except.error Err.documentOutsideWorkspace ↔
      strStartsWith "/ws-other/src/main.rs" envSibling.rootPath = false :=
  workspace_prefix_is_string_prefix.2.1 envSibling "/ws-other/src/main.rs" rfl

/-- Claim C10: checkPathExists is total, always resolving with a
boolean; any filesystem access error becomes the result false, so
neither the remembered-root strategy nor the workspace check can fail
with an input-output error of their own. -/
theorem checkPathExists_total (fs : FS) (p : String) :
    (∃ b, (checkPathExists fs p : Except Err Bool) = Except.ok b) ∧
    (∀ e, fs.access p = some e → (checkPathExists fs p : Except Err Bool) = Except.ok false) ∧
    (∀ prev err, getPreviousCwd fs prev err = Except.error err ∨
      ∃ r, getPreviousCwd fs prev err = Except.ok r) ∧
    (∀ env : Env, ∃ b, checkWorkspaceCanBeUsedAsCwd env = Except.ok b) := by
  refine ⟨⟨(fs.access p).isNone, rfl⟩, ?_, ?_, ?_⟩
  · intro e he
    simp [checkPathExists, he]
  · intro prev err
    cases prev with
    | none => exact Or.inl rfl
    | some q =>
      simp only [getPreviousCwd, checkPathExists, Except.bind]
      by_cases hq : (fs.access (pathJoin q "Cargo.toml")).isNone = true
      · exact Or.inr ⟨q, by simp [hq]⟩
      · simp at hq
        exact Or.inl (by simp [hq])
  · intro env
    exact ⟨(env.fs.access (pathJoin env.rootPath "Cargo.toml")).isNone, rfl⟩

/-- Witness for C10: an access error on an empty filesystem becomes the
resolved value false. -/
theorem checkPathExists_total_witness :
    (checkPathExists (fsOf []) "/x" : Except Err Bool) = Except.ok false :=
  (checkPathExists_total (fsOf []) "/x").2.1 "ENOENT" (by decide)

end PathServiceModel
